import Mathlib

/-
Verification of the gangway handler core (cmd/gangway/handlers.go).

The handlers orchestrate an OAuth2 authorization-code flow: `loginHandler`
stores a random `state` in the primary session partition, `callbackHandler`
verifies the echoed state, exchanges the code for a token and stores the
id/refresh tokens in their session partitions, and `generateInfo` rebuilds
the user record from the session for the `/commandline` and `/kubeconfig`
endpoints, the latter serializing `generateKubeConfig`'s output.

Shallow embedding conventions:
- Go `interface{}` session/claim values become `GoValue` (nil, string, or
  some other dynamic type, abstracted by a numeric tag); a Go type
  assertion `v.(string)` becomes `GoValue.asStr`.
- A gorilla session's `Values` map becomes an association list from `String`
  to `GoValue`; a missing key reads as `GoValue.vNil`, exactly as a Go map
  read of a missing key yields the zero `interface{}`.
- Fallible external collaborators (cookie-store `Get`/`Save`, the OAuth2
  `Exchange`, `oidc.ParseToken`, the CA-file read, `yaml.Marshal`) are
  oracle parameters; each handler is a pure function of the request data,
  the persisted session state and these oracles.
- Go byte slices (`[]byte`) are modelled as `String`, matching the source's
  own `[]byte(cfg.ClusterCA)` / `string(caBytes)` round trips.
-/

set_option autoImplicit false

namespace Gangway

/-- A Go `interface{}` value as stored in sessions and claim maps: nil, a
string, or a value of some other dynamic type (abstracted by a tag). -/
inductive GoValue where
  | vNil
  | vStr (s : String)
  | vOther (tag : Nat)
deriving DecidableEq

/-- The Go type assertion `v.(string)`: yields the string exactly when the
dynamic type is `string`. -/
def GoValue.asStr : GoValue → Option String
  | .vStr s => some s
  | _ => none

/-- Go comparison `q != v` (negated) between a `string` and an
`interface{}`: equal iff the interface holds a `string` of equal value. -/
def GoValue.eqGoStr (q : String) : GoValue → Bool
  | .vStr s => q == s
  | _ => false

/-- The `Values` map of one gorilla session, keyed by string. -/
abbrev SessionValues := List (String × GoValue)

/-- Read `session.Values[k]`: a missing key yields the zero `interface{}`
(`vNil`), as in Go. -/
def SessionValues.get (sess : SessionValues) (k : String) : GoValue :=
  match sess.find? (fun p => p.1 == k) with
  | some p => p.2
  | none => .vNil

/-- Write `session.Values[k] = v`. -/
def SessionValues.put (sess : SessionValues) (k : String) (v : GoValue) : SessionValues :=
  (k, v) :: sess.filter (fun p => !(p.1 == k))

/-- The persisted state of the three gangway session partitions:
"gangway" (primary, holds `state`), "gangway_id_token" and
"gangway_refresh_token". -/
structure Sessions where
  primary : SessionValues
  idToken : SessionValues
  refreshToken : SessionValues
deriving DecidableEq

/-- `gangwayUserSession.Cleanup` on all three partitions: each session is
deleted (its values drop and the cookie expires); deleting an absent or
already-empty session succeeds as well. -/
def Sessions.cleanupAll (_s : Sessions) : Sessions :=
  ⟨[], [], []⟩

/-- `clientcmdapi.Cluster`: the fields `generateKubeConfig` sets. -/
structure Cluster where
  Server : String
  CertificateAuthorityData : String
deriving DecidableEq

/-- `clientcmdapi.NamedCluster`. -/
structure NamedCluster where
  Name : String
  Cluster : Cluster
deriving DecidableEq

/-- `clientcmdapi.Context`: the fields `generateKubeConfig` sets. -/
structure KubeContext where
  Cluster : String
  AuthInfo : String
deriving DecidableEq

/-- `clientcmdapi.NamedContext`. -/
structure NamedContext where
  Name : String
  Context : KubeContext
deriving DecidableEq

/-- `clientcmdapi.AuthProviderConfig` with its string-to-string config map
(kept as an ordered association list). -/
structure AuthProviderConfig where
  Name : String
  Config : List (String × String)
deriving DecidableEq

/-- `clientcmdapi.AuthInfo`: only the `AuthProvider` field is set here. -/
structure AuthInfo where
  AuthProvider : AuthProviderConfig
deriving DecidableEq

/-- `clientcmdapi.NamedAuthInfo`. -/
structure NamedAuthInfo where
  Name : String
  AuthInfo : AuthInfo
deriving DecidableEq

/-- `clientcmdapi.Config`, the kubeconfig document (the fields
`generateKubeConfig` sets). -/
structure KubeconfigDoc where
  Kind : String
  APIVersion : String
  CurrentContext : String
  Clusters : List NamedCluster
  Contexts : List NamedContext
  AuthInfos : List NamedAuthInfo
deriving DecidableEq

/-- The `userInfo` struct of handlers.go, the record `generateInfo` builds.

The source's `generateKubeConfig` reads `cfg.Email` (handlers.go line 112)
although the `userInfo` struct declares no `Email` field, so the file does
not compile as written; the field existed in the upstream struct this code
was edited from. We model the missing field explicitly: with the field
present, Go would leave it at its zero value `""` in `generateInfo`'s
struct literal, which never mentions it. -/
structure userInfo where
  ClusterName : String
  Username : String
  KubeCfgUser : String
  IDToken : String
  RefreshToken : String
  ClientID : String
  ClientSecret : String
  IssuerURL : String
  APIServerURL : String
  ClusterCA : String
  HTTPPath : String
  Clusters : List NamedCluster
  Email : String
deriving DecidableEq

/-- The primary-cluster entry `generateKubeConfig` appends to
`cfg.Clusters`. -/
def primaryCluster (cfg : userInfo) : NamedCluster :=
  { Name := cfg.ClusterName
    Cluster := { Server := cfg.APIServerURL, CertificateAuthorityData := cfg.ClusterCA } }

/-- `generateKubeConfig` (handlers.go 95-143). It receives `*userInfo`, so
the `cfg.Clusters = append(...)` on line 97 mutates the caller's record:
we return the updated record alongside the document.

The loop body's `namedCluster.Cluster.CertificateAuthorityData =
[]byte(cfg.ClusterCA)` (line 115) assigns through the `range` variable,
which in Go is a copy of the slice element; the assignment changes only
the copy and leaves the slice untouched, so it is omitted here. The
context's `AuthInfo` is the source's `cfg.Email` (see `userInfo.Email`). -/
def generateKubeConfig (cfg : userInfo) : userInfo × KubeconfigDoc :=
  let cfg : userInfo := { cfg with Clusters := cfg.Clusters ++ [primaryCluster cfg] }
  let contexts : List NamedContext := cfg.Clusters.map (fun namedCluster =>
    { Name := namedCluster.Name
      Context := { Cluster := namedCluster.Name, AuthInfo := cfg.Email } })
  (cfg,
    { Kind := "Config"
      APIVersion := "v1"
      CurrentContext := cfg.ClusterName
      Clusters := cfg.Clusters
      Contexts := contexts
      AuthInfos := [
        { Name := cfg.KubeCfgUser
          AuthInfo := { AuthProvider := {
            Name := "oidc"
            Config := [
              ("client-id", cfg.ClientID),
              ("client-secret", cfg.ClientSecret),
              ("id-token", cfg.IDToken),
              ("idp-issuer-url", cfg.IssuerURL),
              ("refresh-token", cfg.RefreshToken)] } } }] })

/-- The static gangway configuration fields the modelled handlers read
(from the ambient `cfg` of type `config.Config`). -/
structure GangwayConfig where
  ClusterName : String
  UsernameClaim : String
  EmailClaim : String
  ClientID : String
  ClientSecret : String
  APIServerURL : String
  HTTPPath : String
  Clusters : List NamedCluster
deriving DecidableEq

/-- What a handler writes to the `http.ResponseWriter`. -/
inductive Response where
  /-- `http.Error(w, body, status)`. -/
  | httpError (status : Nat) (body : String)
  /-- `http.Redirect(w, r, location, status)`. -/
  | redirect (status : Nat) (location : String)
  /-- A 200 response whose body is the marshalled kubeconfig, sent with
  header `Content-Disposition: Attachment`. -/
  | attachment (body : String)
deriving DecidableEq

/-- The `oauth2.Token` returned by `Exchange`, restricted to what
`callbackHandler` reads: the `id_token` extra field (an `interface{}`,
possibly absent or non-string) and the `RefreshToken` string field. -/
structure OAuthToken where
  extraIDToken : GoValue
  refreshToken : String

/-- The fallible external collaborators of `callbackHandler`: the three
cookie-store `Get`s, the OAuth2 `Exchange` (as a function of the `code`
query parameter), and the three `Save`s. `some e` is a failure with error
text `e`; `none` is success. -/
structure CallbackEnv where
  getPrimaryErr : Option String
  getIDErr : Option String
  getRefreshErr : Option String
  exchange : String → Except String OAuthToken
  savePrimaryErr : Option String
  saveIDErr : Option String
  saveRefreshErr : Option String

/-- A handler's outcome: the response written, the persisted session state
afterwards (a failed `Save` leaves the store as it was), and whether the
token exchange was attempted. -/
structure CallbackOutcome where
  response : Response
  sessions : Sessions
  exchangeAttempted : Bool
deriving DecidableEq

/-- `callbackHandler` (handlers.go 203-262), as a function of the `state`
and `code` query parameters, the persisted sessions and the oracles.
`http.StatusText(http.StatusForbidden)` is `"Forbidden"`; the final
redirect target is `fmt.Sprintf("%s/commandline", cfg.HTTPPath)`. -/
def callbackHandler (cfg : GangwayConfig) (env : CallbackEnv)
    (qState qCode : String) (s : Sessions) : CallbackOutcome :=
  match env.getPrimaryErr with
  | some e => ⟨.httpError 500 e, s, false⟩
  | none =>
  match env.getIDErr with
  | some e => ⟨.httpError 500 e, s, false⟩
  | none =>
  match env.getRefreshErr with
  | some e => ⟨.httpError 500 e, s, false⟩
  | none =>
  if !(GoValue.eqGoStr qState (s.primary.get "state")) then
    ⟨.httpError 403 "Forbidden", s, false⟩
  else
    match env.exchange qCode with
    | .error e => ⟨.httpError 500 e, s, true⟩
    | .ok token =>
      let idVals := s.idToken.put "id_token" token.extraIDToken
      let rtVals := s.refreshToken.put "refresh_token" (.vStr token.refreshToken)
      match env.savePrimaryErr with
      | some e => ⟨.httpError 500 e, s, true⟩
      | none =>
      match env.saveIDErr with
      | some e => ⟨.httpError 500 e, s, true⟩
      | none =>
      match env.saveRefreshErr with
      | some e => ⟨.httpError 500 e, { s with idToken := idVals }, true⟩
      | none =>
        ⟨.redirect 303 (cfg.HTTPPath ++ "/commandline"),
          { primary := s.primary, idToken := idVals, refreshToken := rtVals }, true⟩

/-- A verified token's claim map (`jwt.MapClaims`): claim name to
`interface{}` value; a missing claim reads as `vNil`. -/
abbrev Claims := List (String × GoValue)

/-- Read `claims[k]`. -/
def Claims.get (c : Claims) (k : String) : GoValue :=
  match c.find? (fun p => p.1 == k) with
  | some p => p.2
  | none => .vNil

/-- The fallible external collaborators of `generateInfo`: the CA-file
open-and-read (a failure yields empty bytes and a log line only), the two
cookie-store `Get`s, and `oidc.ParseToken` applied to the id token and the
client secret. -/
structure InfoEnv where
  caRead : Except String String
  getIDErr : Option String
  getRefreshErr : Option String
  parseToken : String → String → Except String Claims

/-- `generateInfo`'s outcome: the record (`nil` on every early return),
the response written on early returns, and the persisted session state. -/
structure InfoOutcome where
  info : Option userInfo
  response : Option Response
  sessions : Sessions
deriving DecidableEq

/-- Go `strings.Join(elems, sep)`. -/
def stringsJoin (sep : String) : List String → String
  | [] => ""
  | [a] => a
  | a :: rest => a ++ sep ++ stringsJoin sep rest

/-- The `userInfo` literal `generateInfo` returns on its success path
(handlers.go 370-383): the modelled `Email` stays at its zero value
because the source literal never mentions that (missing) field. -/
def infoRecord (cfg : GangwayConfig)
    (caBytes username kubeCfgUser idToken refreshToken issuerURL : String) : userInfo :=
  { ClusterName := cfg.ClusterName
    Username := username
    KubeCfgUser := kubeCfgUser
    IDToken := idToken
    RefreshToken := refreshToken
    ClientID := cfg.ClientID
    ClientSecret := cfg.ClientSecret
    IssuerURL := issuerURL
    APIServerURL := cfg.APIServerURL
    ClusterCA := caBytes
    HTTPPath := cfg.HTTPPath
    Clusters := cfg.Clusters
    Email := "" }

/-- `generateInfo` (handlers.go 295-385). The CA read failure is non-fatal
(`caBytes` stays empty); a cookie-store `Get` failure writes a generic 500
(`http.StatusText(http.StatusInternalServerError)` is
`"Internal Server Error"`); a non-string `id_token` or `refresh_token`
clears all three partitions and 307-redirects to `"/"`; parse and claim
failures write specific 500 bodies. On success the `userInfo` literal sets
the listed fields and leaves the modelled `Email` at its zero value. -/
def generateInfo (cfg : GangwayConfig) (env : InfoEnv) (s : Sessions) : InfoOutcome :=
  let caBytes := match env.caRead with
    | .ok b => b
    | .error _ => ""
  match env.getIDErr with
  | some _ => ⟨none, some (.httpError 500 "Internal Server Error"), s⟩
  | none =>
  match env.getRefreshErr with
  | some _ => ⟨none, some (.httpError 500 "Internal Server Error"), s⟩
  | none =>
  match (s.idToken.get "id_token").asStr with
  | none => ⟨none, some (.redirect 307 "/"), s.cleanupAll⟩
  | some idToken =>
  match (s.refreshToken.get "refresh_token").asStr with
  | none => ⟨none, some (.redirect 307 "/"), s.cleanupAll⟩
  | some refreshToken =>
  match env.parseToken idToken cfg.ClientSecret with
  | .error _ => ⟨none, some (.httpError 500 "Could not parse JWT"), s⟩
  | .ok claims =>
  match (claims.get cfg.UsernameClaim).asStr with
  | none => ⟨none, some (.httpError 500 "Could not parse Username claim"), s⟩
  | some username =>
  let kubeCfgUser := stringsJoin "@" [username, cfg.ClusterName]
  match (claims.get "iss").asStr with
  | none => ⟨none, some (.httpError 500 "Could not parse Issuer URL claim"), s⟩
  | some issuerURL =>
    ⟨some (infoRecord cfg caBytes username kubeCfgUser idToken refreshToken issuerURL),
      none, s⟩

/-- `kubeConfigHandler` (handlers.go 275-293): build the record, marshal
the generated kubeconfig through the `yaml.Marshal` oracle, and either
serve the bytes as an attachment or write the generic
"Error creating kubeconfig" 500. Returns the response written and the
persisted sessions. -/
def kubeConfigHandler (cfg : GangwayConfig) (env : InfoEnv)
    (marshal : KubeconfigDoc → Except String String) (s : Sessions) :
    Response × Sessions :=
  match generateInfo cfg env s with
  | ⟨none, resp, s1⟩ => (resp.getD (.httpError 500 "Internal Server Error"), s1)
  | ⟨some info, _, s1⟩ =>
    match marshal (generateKubeConfig info).2 with
    | .error _ => (.httpError 500 "Error creating kubeconfig", s1)
    | .ok d => (.attachment d, s1)

/-! ### Helper lemmas -/

/-- Writing a key and reading it back yields the written value. -/
theorem SessionValues.get_put (sess : SessionValues) (k : String) (v : GoValue) :
    (sess.put k v).get k = v := by
  simp [SessionValues.get, SessionValues.put]

/-- Counting the occurrences of `'@'` in a string. -/
def atCount (s : String) : Nat := s.data.count '@'

/-- `atCount` distributes over string append. -/
theorem atCount_append (a b : String) : atCount (a ++ b) = atCount a + atCount b := by
  have h : (a ++ b).data = a.data ++ b.data := rfl
  simp [atCount, h, List.count_append]

/-- A successful `generateInfo` run returns the record with no response and
untouched sessions, and its `KubeCfgUser` is the `strings.Join` of its own
`Username` and `ClusterName` fields. -/
theorem generateInfo_success_shape (cfg : GangwayConfig) (ienv : InfoEnv) (s : Sessions)
    (i : userInfo) (h : (generateInfo cfg ienv s).info = some i) :
    generateInfo cfg ienv s = ⟨some i, none, s⟩ ∧
    i.ClusterName = cfg.ClusterName ∧
    i.KubeCfgUser = stringsJoin "@" [i.Username, i.ClusterName] := by
  unfold generateInfo at h ⊢
  rcases h1 : ienv.getIDErr with _ | e <;> simp only [h1] at h ⊢
  case some => simp at h
  rcases h2 : ienv.getRefreshErr with _ | e <;> simp only [h2] at h ⊢
  case some => simp at h
  rcases h3 : (s.idToken.get "id_token").asStr with _ | idt <;> simp only [h3] at h ⊢
  case none => simp at h
  rcases h4 : (s.refreshToken.get "refresh_token").asStr with _ | rt <;>
    simp only [h4] at h ⊢
  case none => simp at h
  rcases h5 : ienv.parseToken idt cfg.ClientSecret with e | cl <;> simp only [h5] at h ⊢
  case error => simp at h
  rcases h6 : (cl.get cfg.UsernameClaim).asStr with _ | u <;> simp only [h6] at h ⊢
  case none => simp at h
  rcases h7 : (cl.get "iss").asStr with _ | iss <;> simp only [h7] at h ⊢
  case none => simp at h
  simp only [Option.some.injEq] at h
  subst h
  exact ⟨rfl, rfl, rfl⟩

/-! ### Concrete fixtures for the witness and counterexample theorems -/

/-- An additionally configured named cluster, with no CA data of its own. -/
def exClusters : List NamedCluster := [⟨"extra", ⟨"https://extra-api", ""⟩⟩]

/-- A concrete gangway configuration. -/
def exCfg : GangwayConfig :=
  ⟨"main", "user", "", "cid", "secret", "https://api", "https://gangway.example.com", exClusters⟩

/-- A token whose `id_token` extra field is a string. -/
def exToken : OAuthToken := ⟨.vStr "idtok", "rtok"⟩

/-- A callback environment where every store operation and the exchange
succeed. -/
def exEnvOk : CallbackEnv := ⟨none, none, none, fun _ => .ok exToken, none, none, none⟩

/-- Sessions as they stand right after `loginHandler` stored state `"S1"`. -/
def exSessions : Sessions := ⟨[("state", .vStr "S1")], [], []⟩

/-- A token whose exchange carried no `id_token` extra at all. -/
def exTokenNoID : OAuthToken := ⟨.vNil, "rtok"⟩

/-- A callback environment whose exchange returns `exTokenNoID`. -/
def exEnvNoID : CallbackEnv := ⟨none, none, none, fun _ => .ok exTokenNoID, none, none, none⟩

/-- A verified claim map with username claim `"user"` and issuer. -/
def exClaims : Claims := [("user", .vStr "alice"), ("iss", .vStr "https://issuer")]

/-- A `generateInfo` environment where everything succeeds. -/
def exInfoEnv : InfoEnv := ⟨.ok "CAPEM", none, none, fun _ _ => .ok exClaims⟩

/-- Sessions of an authenticated user (id and refresh tokens stored). -/
def exAuthSessions : Sessions :=
  ⟨[("state", .vStr "S1")], [("id_token", .vStr "idtok")], [("refresh_token", .vStr "rtok")]⟩

/-- The record `generateInfo` builds from `exCfg`, `exInfoEnv` and
`exAuthSessions`. -/
def exInfo : userInfo :=
  infoRecord exCfg "CAPEM" "alice" "alice@main" "idtok" "rtok" "https://issuer"

/-! ### Claim theorems -/

/-- C1: on a callback whose `state` query parameter does not string-equal
the primary partition's stored `state` — including when no state is stored
at all — the handler answers HTTP 403 "Forbidden", attempts no token
exchange, and leaves every session partition exactly as it was. -/
theorem callback_state_mismatch_forbidden (cfg : GangwayConfig) (env : CallbackEnv)
    (qState qCode : String) (s : Sessions)
    (h1 : env.getPrimaryErr = none) (h2 : env.getIDErr = none) (h3 : env.getRefreshErr = none)
    (hm : GoValue.eqGoStr qState (s.primary.get "state") = false) :
    callbackHandler cfg env qState qCode s = ⟨.httpError 403 "Forbidden", s, false⟩ := by
  simp [callbackHandler, h1, h2, h3, hm]

/-- Witness for C1, at a session that holds no state value at all. -/
theorem callback_state_mismatch_forbidden_witness :
    callbackHandler exCfg exEnvOk "S1" "C1" ⟨[], [], []⟩ =
      ⟨.httpError 403 "Forbidden", ⟨[], [], []⟩, false⟩ :=
  callback_state_mismatch_forbidden exCfg exEnvOk "S1" "C1" ⟨[], [], []⟩ rfl rfl rfl rfl

/-- C5: on a callback whose state matches and whose code exchange (and
session persistence) succeeds, the id-token partition holds the exchanged
token's `id_token` extra, the refresh-token partition holds its refresh
token, the primary partition is kept, and the response is an HTTP 303
redirect to `<HTTPPath>/commandline`. -/
theorem callback_success_populates_sessions (cfg : GangwayConfig) (env : CallbackEnv)
    (qState qCode : String) (s : Sessions) (t : OAuthToken)
    (h1 : env.getPrimaryErr = none) (h2 : env.getIDErr = none) (h3 : env.getRefreshErr = none)
    (hst : GoValue.eqGoStr qState (s.primary.get "state") = true)
    (hex : env.exchange qCode = .ok t)
    (h4 : env.savePrimaryErr = none) (h5 : env.saveIDErr = none)
    (h6 : env.saveRefreshErr = none) :
    callbackHandler cfg env qState qCode s =
      ⟨.redirect 303 (cfg.HTTPPath ++ "/commandline"),
        ⟨s.primary, s.idToken.put "id_token" t.extraIDToken,
          s.refreshToken.put "refresh_token" (.vStr t.refreshToken)⟩, true⟩ ∧
    (callbackHandler cfg env qState qCode s).sessions.idToken.get "id_token"
      = t.extraIDToken ∧
    (callbackHandler cfg env qState qCode s).sessions.refreshToken.get "refresh_token"
      = .vStr t.refreshToken := by
  have h : callbackHandler cfg env qState qCode s =
      ⟨.redirect 303 (cfg.HTTPPath ++ "/commandline"),
        ⟨s.primary, s.idToken.put "id_token" t.extraIDToken,
          s.refreshToken.put "refresh_token" (.vStr t.refreshToken)⟩, true⟩ := by
    simp [callbackHandler, h1, h2, h3, hst, hex, h4, h5, h6]
  refine ⟨h, ?_, ?_⟩ <;> rw [h] <;> exact SessionValues.get_put ..

/-- Witness for C5: the scenario `state=S1, code=C1` with exchange
returning id token `"idtok"` and refresh token `"rtok"`. -/
theorem callback_success_populates_sessions_witness :
    callbackHandler exCfg exEnvOk "S1" "C1" exSessions =
      ⟨.redirect 303 (exCfg.HTTPPath ++ "/commandline"),
        ⟨exSessions.primary, exSessions.idToken.put "id_token" exToken.extraIDToken,
          exSessions.refreshToken.put "refresh_token" (.vStr exToken.refreshToken)⟩, true⟩ ∧
    (callbackHandler exCfg exEnvOk "S1" "C1" exSessions).sessions.idToken.get "id_token"
      = exToken.extraIDToken ∧
    (callbackHandler exCfg exEnvOk "S1" "C1" exSessions).sessions.refreshToken.get
      "refresh_token" = .vStr exToken.refreshToken :=
  callback_success_populates_sessions exCfg exEnvOk "S1" "C1" exSessions exToken
    rfl rfl rfl rfl rfl rfl rfl rfl

/-- C10: the callback never checks the exchanged token's `id_token` extra:
when it is not a string (here: absent), the callback still finishes with
the 303 success redirect and stores the non-string value in the id-token
partition, and only `generateInfo` later detects it, treating the session
as unauthenticated (clear all partitions, redirect to `/`, no record). -/
theorem callback_unchecked_id_token (cfg : GangwayConfig) (env : CallbackEnv)
    (ienv : InfoEnv) (qState qCode : String) (s : Sessions) (t : OAuthToken)
    (h1 : env.getPrimaryErr = none) (h2 : env.getIDErr = none) (h3 : env.getRefreshErr = none)
    (hst : GoValue.eqGoStr qState (s.primary.get "state") = true)
    (hex : env.exchange qCode = .ok t)
    (h4 : env.savePrimaryErr = none) (h5 : env.saveIDErr = none)
    (h6 : env.saveRefreshErr = none)
    (hns : t.extraIDToken.asStr = none)
    (g1 : ienv.getIDErr = none) (g2 : ienv.getRefreshErr = none) :
    (callbackHandler cfg env qState qCode s).response
      = .redirect 303 (cfg.HTTPPath ++ "/commandline") ∧
    (callbackHandler cfg env qState qCode s).sessions.idToken.get "id_token"
      = t.extraIDToken ∧
    generateInfo cfg ienv (callbackHandler cfg env qState qCode s).sessions
      = ⟨none, some (.redirect 307 "/"), ⟨[], [], []⟩⟩ := by
  have h : callbackHandler cfg env qState qCode s =
      ⟨.redirect 303 (cfg.HTTPPath ++ "/commandline"),
        ⟨s.primary, s.idToken.put "id_token" t.extraIDToken,
          s.refreshToken.put "refresh_token" (.vStr t.refreshToken)⟩, true⟩ := by
    simp [callbackHandler, h1, h2, h3, hst, hex, h4, h5, h6]
  refine ⟨by rw [h], by rw [h]; exact SessionValues.get_put .., ?_⟩
  rw [h]
  simp [generateInfo, g1, g2, SessionValues.get_put, hns, Sessions.cleanupAll]

/-- Witness for C10: an exchange result with no `id_token` extra. -/
theorem callback_unchecked_id_token_witness :
    (callbackHandler exCfg exEnvNoID "S1" "C1" exSessions).response
      = .redirect 303 (exCfg.HTTPPath ++ "/commandline") ∧
    (callbackHandler exCfg exEnvNoID "S1" "C1" exSessions).sessions.idToken.get "id_token"
      = exTokenNoID.extraIDToken ∧
    generateInfo exCfg exInfoEnv (callbackHandler exCfg exEnvNoID "S1" "C1" exSessions).sessions
      = ⟨none, some (.redirect 307 "/"), ⟨[], [], []⟩⟩ :=
  callback_unchecked_id_token exCfg exEnvNoID exInfoEnv "S1" "C1" exSessions exTokenNoID
    rfl rfl rfl rfl rfl rfl rfl rfl rfl rfl rfl

/-- C8: when the id-token partition (or, symmetrically, the refresh-token
partition) lacks a string-typed value, `generateInfo` clears all three
session partitions, 307-redirects to the site root `/` and returns no
record; running it again on the cleared sessions is idempotent: same
clear, same redirect, no error. -/
theorem generateInfo_unauthenticated_reset (cfg : GangwayConfig) (ienv : InfoEnv)
    (s : Sessions)
    (g1 : ienv.getIDErr = none) (g2 : ienv.getRefreshErr = none)
    (h : (s.idToken.get "id_token").asStr = none ∨
         (s.refreshToken.get "refresh_token").asStr = none) :
    generateInfo cfg ienv s = ⟨none, some (.redirect 307 "/"), ⟨[], [], []⟩⟩ ∧
    generateInfo cfg ienv ⟨[], [], []⟩
      = ⟨none, some (.redirect 307 "/"), ⟨[], [], []⟩⟩ := by
  constructor
  · rcases h with h | h
    · simp [generateInfo, g1, g2, h, Sessions.cleanupAll]
    · rcases hid : (s.idToken.get "id_token").asStr with _ | idt
      · simp [generateInfo, g1, g2, hid, Sessions.cleanupAll]
      · simp [generateInfo, g1, g2, hid, h, Sessions.cleanupAll]
  · simp [generateInfo, g1, g2, SessionValues.get, GoValue.asStr, Sessions.cleanupAll]

/-- Witness for C8: a never-populated session. -/
theorem generateInfo_unauthenticated_reset_witness :
    generateInfo exCfg exInfoEnv exSessions
      = ⟨none, some (.redirect 307 "/"), ⟨[], [], []⟩⟩ ∧
    generateInfo exCfg exInfoEnv ⟨[], [], []⟩
      = ⟨none, some (.redirect 307 "/"), ⟨[], [], []⟩⟩ :=
  generateInfo_unauthenticated_reset exCfg exInfoEnv exSessions rfl rfl (Or.inl rfl)

/-- C9: a failure opening or reading the CA file is non-fatal: for an
authenticated session, `generateInfo` still returns the fully built record
with empty CA bytes, and `kubeConfigHandler` still serves the marshalled
document (HTTP 200, as an attachment) rather than an error. -/
theorem generateInfo_ca_read_failure_nonfatal (cfg : GangwayConfig) (ienv : InfoEnv)
    (s : Sessions) (err idt rt : String) (cl : Claims) (u iss : String)
    (marshal : KubeconfigDoc → Except String String) (d : String)
    (hca : ienv.caRead = .error err)
    (g1 : ienv.getIDErr = none) (g2 : ienv.getRefreshErr = none)
    (hid : (s.idToken.get "id_token").asStr = some idt)
    (hrt : (s.refreshToken.get "refresh_token").asStr = some rt)
    (hp : ienv.parseToken idt cfg.ClientSecret = .ok cl)
    (hu : (cl.get cfg.UsernameClaim).asStr = some u)
    (hiss : (cl.get "iss").asStr = some iss)
    (hm : marshal (generateKubeConfig
        (infoRecord cfg "" u (stringsJoin "@" [u, cfg.ClusterName]) idt rt iss)).2 = .ok d) :
    generateInfo cfg ienv s
      = ⟨some (infoRecord cfg "" u (stringsJoin "@" [u, cfg.ClusterName]) idt rt iss),
          none, s⟩ ∧
    (infoRecord cfg "" u (stringsJoin "@" [u, cfg.ClusterName]) idt rt iss).ClusterCA = "" ∧
    kubeConfigHandler cfg ienv marshal s = (.attachment d, s) := by
  have h : generateInfo cfg ienv s
      = ⟨some (infoRecord cfg "" u (stringsJoin "@" [u, cfg.ClusterName]) idt rt iss),
          none, s⟩ := by
    simp [generateInfo, hca, g1, g2, hid, hrt, hp, hu, hiss]
  exact ⟨h, rfl, by simp [kubeConfigHandler, h, hm]⟩

/-- A `generateInfo` environment whose CA-file read fails. -/
def exInfoEnvNoCA : InfoEnv :=
  ⟨.error "open ca.crt: no such file or directory", none, none, fun _ _ => .ok exClaims⟩

/-- A marshal oracle that succeeds with fixed bytes. -/
def exMarshalOk : KubeconfigDoc → Except String String := fun _ => .ok "yamlbytes"

/-- Witness for C9: missing CA file, authenticated session. -/
theorem generateInfo_ca_read_failure_nonfatal_witness :
    generateInfo exCfg exInfoEnvNoCA exAuthSessions
      = ⟨some (infoRecord exCfg "" "alice" (stringsJoin "@" ["alice", exCfg.ClusterName])
          "idtok" "rtok" "https://issuer"), none, exAuthSessions⟩ ∧
    (infoRecord exCfg "" "alice" (stringsJoin "@" ["alice", exCfg.ClusterName])
      "idtok" "rtok" "https://issuer").ClusterCA = "" ∧
    kubeConfigHandler exCfg exInfoEnvNoCA exMarshalOk exAuthSessions
      = (.attachment "yamlbytes", exAuthSessions) :=
  generateInfo_ca_read_failure_nonfatal exCfg exInfoEnvNoCA exAuthSessions
    "open ca.crt: no such file or directory" "idtok" "rtok" exClaims "alice" "https://issuer"
    exMarshalOk "yamlbytes" rfl rfl rfl rfl rfl rfl rfl rfl rfl

/-- A claim map whose username claim is an email address (it contains `@`
itself). -/
def exEmailClaims : Claims := [("user", .vStr "alice@example.com"), ("iss", .vStr "https://issuer")]

/-- A `generateInfo` environment whose username claim value contains `@`. -/
def exInfoEnvEmail : InfoEnv := ⟨.ok "CAPEM", none, none, fun _ _ => .ok exEmailClaims⟩

/-- Counterexample to C7 as stated: with the username claim value
`"alice@example.com"` (an email address) and cluster name `"main"`, the
computed `kubeCfgUser` is `"alice@example.com@main"`, which contains two
`@`, not "a single `@` separator". -/
theorem kubeCfgUser_single_at_refuted :
    ((generateInfo exCfg exInfoEnvEmail exAuthSessions).info.map
      (fun i => i.KubeCfgUser)) = some "alice@example.com@main" ∧
    atCount "alice@example.com@main" = 2 ∧ (2 : Nat) ≠ 1 :=
  ⟨rfl, rfl, by decide⟩

/-- C7 (amended): the computed `kubeCfgUser` of every record `generateInfo`
returns is exactly the username claim value, then `"@"`, then the cluster
name; it contains a single `@` whenever neither the username claim value
nor the cluster name contains `@` of its own. -/
theorem kubeCfgUser_shape (cfg : GangwayConfig) (ienv : InfoEnv) (s : Sessions)
    (i : userInfo) (h : (generateInfo cfg ienv s).info = some i) :
    i.KubeCfgUser = i.Username ++ "@" ++ i.ClusterName ∧
    (atCount i.Username = 0 → atCount i.ClusterName = 0 → atCount i.KubeCfgUser = 1) := by
  obtain ⟨-, -, hk⟩ := generateInfo_success_shape cfg ienv s i h
  have hk' : i.KubeCfgUser = i.Username ++ "@" ++ i.ClusterName := by
    rw [hk]; rfl
  refine ⟨hk', fun hu hc => ?_⟩
  rw [hk', atCount_append, atCount_append, hu, hc]
  rfl

/-- Witness for C7 (amended): username `"alice"`, cluster `"main"`. -/
theorem kubeCfgUser_shape_witness :
    exInfo.KubeCfgUser = exInfo.Username ++ "@" ++ exInfo.ClusterName ∧
    (atCount exInfo.Username = 0 → atCount exInfo.ClusterName = 0 →
      atCount exInfo.KubeCfgUser = 1) :=
  kubeCfgUser_shape exCfg exInfoEnv exAuthSessions exInfo rfl

/-- Counterexample to C4 as stated: `generateKubeConfig` receives the
record by pointer and reassigns its `Clusters` field, so the input record
does not come out unchanged. -/
theorem generateKubeConfig_mutates_input : (generateKubeConfig exInfo).1 ≠ exInfo := by
  decide

/-- C4 (amended): kubeconfig generation is a total function with no
failure path, but it mutates the input record in exactly one way —
appending the primary cluster entry to its `Clusters` field; the only
failure is the downstream serialization error, which `kubeConfigHandler`
surfaces as HTTP 500 with the generic body "Error creating kubeconfig". -/
theorem generateKubeConfig_effects :
    (∀ u : userInfo, (generateKubeConfig u).1
      = { u with Clusters := u.Clusters ++ [primaryCluster u] }) ∧
    (∀ (cfg : GangwayConfig) (ienv : InfoEnv)
      (marshal : KubeconfigDoc → Except String String) (s : Sessions) (i : userInfo)
      (e : String), (generateInfo cfg ienv s).info = some i →
      marshal (generateKubeConfig i).2 = .error e →
      kubeConfigHandler cfg ienv marshal s
        = (.httpError 500 "Error creating kubeconfig", s)) := by
  refine ⟨fun u => rfl, fun cfg ienv marshal s i e h hm => ?_⟩
  obtain ⟨hout, -, -⟩ := generateInfo_success_shape cfg ienv s i h
  simp [kubeConfigHandler, hout, hm]

/-- A marshal oracle that fails. -/
def exMarshalErr : KubeconfigDoc → Except String String := fun _ => .error "marshal failed"

/-- Witness for C4 (amended), at `exInfo` and a failing marshal oracle. -/
theorem generateKubeConfig_effects_witness :
    (generateKubeConfig exInfo).1
      = { exInfo with Clusters := exInfo.Clusters ++ [primaryCluster exInfo] } ∧
    kubeConfigHandler exCfg exInfoEnv exMarshalErr exAuthSessions
      = (.httpError 500 "Error creating kubeconfig", exAuthSessions) :=
  ⟨generateKubeConfig_effects.1 exInfo,
    generateKubeConfig_effects.2 exCfg exInfoEnv exMarshalErr exAuthSessions exInfo
      "marshal failed" rfl rfl⟩

/-- C2 refuted (code bug): the record's CA bytes `"CAPEM"` end up only on
the appended primary cluster entry; the additionally configured cluster
entry keeps its own (empty) CA data, because the loop assigns through the
range-variable copy. The claim's "duplicated onto every cluster entry" is
what the source's comments intend but not what the code does. -/
theorem kubeconfig_extra_cluster_ca_not_duplicated :
    exInfo.ClusterCA = "CAPEM" ∧
    ((generateKubeConfig exInfo).2.Clusters.map
      (fun nc => nc.Cluster.CertificateAuthorityData)) = ["", "CAPEM"] :=
  ⟨rfl, rfl⟩

/-- C3 refuted (code bug): the record built by `generateInfo` yields a
document whose sole auth-info entry is named `"alice@main"` (the computed
username), while every context's auth-info field is the record's `Email`
value — a field the source struct does not even declare — which is `""`,
not the sole auth-info name. -/
theorem kubeconfig_context_binds_missing_email :
    (generateInfo exCfg exInfoEnv exAuthSessions).info = some exInfo ∧
    ((generateKubeConfig exInfo).2.Contexts.map (fun c => c.Context.AuthInfo)) = ["", ""] ∧
    ((generateKubeConfig exInfo).2.AuthInfos.map (fun a => a.Name)) = ["alice@main"] ∧
    ("" : String) ≠ "alice@main" :=
  ⟨rfl, rfl, rfl, by decide⟩

/-- C6: for every record, the generated document has exactly one auth-info
entry and its `current-context` is the primary cluster's name (the name of
the appended primary cluster entry). -/
theorem kubeconfig_single_authinfo_and_current_context (u : userInfo) :
    (generateKubeConfig u).2.AuthInfos.length = 1 ∧
    (generateKubeConfig u).2.CurrentContext = u.ClusterName ∧
    (generateKubeConfig u).2.Clusters.getLast? = some (primaryCluster u) := by
  refine ⟨rfl, rfl, ?_⟩
  simp [generateKubeConfig]

end Gangway
